import Mathlib

/-!
Shallow embedding of the Smartbin repository: the upload/analyze/display
controller (`src/unnamed/part_001`, a page component), the analysis relay
route (`src/src/app/api/analyze/route.ts`), and the `ProgressBar`
component (`src/unnamed/part_000`).

State updates are modelled as pure functions on an explicit state record;
the relay is modelled as a function of the inbound request and the
behaviour of the single upstream endpoint, returning the HTTP response
together with the list of outbound calls it made.
-/

namespace Smartbin

/-- The two analysis modes of the application. -/
inductive Mode where
  | segregation
  | fullness
deriving DecidableEq

/-- An uploaded file: name, size, and raw byte content. -/
structure FileData where
  name : String
  size : Nat
  bytes : List Nat
deriving DecidableEq

/-- The `AnalysisResult` type of the controller page (part_001): every field
is optional, mirroring the TypeScript optional fields. -/
structure AnalysisResult where
  status : Option String := none
  message : Option String := none
  segregated_category : Option String := none
  detected_labels : Option (List String) := none
  confidence : Option Rat := none
  document_id : Option String := none
  bin_level : Option Rat := none
  alert : Option Bool := none
  analysisType : Option Mode := none
deriving DecidableEq

/-- The controller's React state: `selectedOption`, `uploadedFile`,
`isAnalyzing`, `analysisResult`. -/
structure ControllerState where
  selectedOption : Option Mode
  uploadedFile : Option FileData
  isAnalyzing : Bool
  analysisResult : Option AnalysisResult
deriving DecidableEq

/-- The initial state of the controller: all `useState` initialisers. -/
def initialState : ControllerState :=
  { selectedOption := none
    uploadedFile := none
    isAnalyzing := false
    analysisResult := none }

/-- `setSelectedOption(m)` as invoked by the two option cards. -/
def setSelectedOption (s : ControllerState) (m : Mode) : ControllerState :=
  { s with selectedOption := some m }

/-- `handleFileUpload`: if a file was picked, store it and clear the result;
otherwise do nothing. -/
def handleFileUpload (s : ControllerState) (f : Option FileData) : ControllerState :=
  match f with
  | some file => { s with uploadedFile := some file, analysisResult := none }
  | none => s

/-- The mock segregation result set in the catch branch of `analyzeImage`. -/
def mockSegregationResult : AnalysisResult :=
  { status := some "Error"
    message := some "Analysis failed, showing mock data for segregation."
    segregated_category := some "PLASTIC"
    detected_labels := some ["bottle", "plastic", "recyclable"]
    confidence := some ((85 : Rat) / 100)
    document_id := some "mock_seg_doc" }

/-- The mock fullness result set in the catch branch of `analyzeImage`. -/
def mockFullnessResult : AnalysisResult :=
  { status := some "Error"
    message := some "Analysis failed, showing mock data for fullness check."
    bin_level := some ((955 : Rat) / 10)
    alert := some true
    document_id := some "mock_fill_doc" }

/-- The catch branch of `analyzeImage` picks the mock by the selected mode. -/
def mockFallback : Mode → AnalysisResult
  | Mode.segregation => mockSegregationResult
  | Mode.fullness => mockFullnessResult

/-- The possible outcomes of the controller's fetch to `/api/analyze`:
a 2xx response with a parsed JSON body, a non-ok HTTP status (which makes
the controller throw into its catch branch), or a transport failure. -/
inductive RelayOutcome where
  | ok (data : AnalysisResult)
  | httpError (status : Nat)
  | transportFailure
deriving DecidableEq

/-- The state right after `setIsAnalyzing(true)`, while the fetch to the
relay is awaited. -/
def analyzeStart (s : ControllerState) : ControllerState :=
  { s with isAnalyzing := true }

/-- `analyzeImage` run to completion against a given relay outcome.
Returns the final state together with a flag recording whether a request
was issued. The leading guard is `if (!uploadedFile || !selectedOption)
return;`; on a 2xx response the parsed body becomes the result; on a
non-ok status or a transport failure the catch branch installs the mock
fallback for the selected mode; the finally branch clears `isAnalyzing`. -/
def analyzeImage (s : ControllerState) (out : RelayOutcome) :
    ControllerState × Bool :=
  match s.uploadedFile, s.selectedOption with
  | some _, some mode =>
      let s1 := analyzeStart s
      let s2 :=
        match out with
        | RelayOutcome.ok data => { s1 with analysisResult := some data }
        | RelayOutcome.httpError _ =>
            { s1 with analysisResult := some (mockFallback mode) }
        | RelayOutcome.transportFailure =>
            { s1 with analysisResult := some (mockFallback mode) }
      ({ s2 with isAnalyzing := false }, true)
  | _, _ => (s, false)

/-- `resetUpload`: clears the uploaded file, the result, and the selected
option. -/
def resetUpload (s : ControllerState) : ControllerState :=
  { s with uploadedFile := none, analysisResult := none, selectedOption := none }

/-- `const binLevel = analysisResult?.bin_level ?? 0;` -/
def binLevel (r : Option AnalysisResult) : Rat :=
  match r with
  | some res => res.bin_level.getD 0
  | none => 0

/-- `const isAlert = analysisResult?.alert ?? false;` -/
def isAlert (r : Option AnalysisResult) : Bool :=
  match r with
  | some res => res.alert.getD false
  | none => false

/-- `getFillColor`, the fill-bar colour helper of the fullness display. -/
def getFillColor (level : Rat) : String :=
  if level ≥ 90 then "bg-red-600"
  else if level ≥ 70 then "bg-yellow-600"
  else "bg-green-600"

/-- The render condition of the Analyze button: it sits inside the
`selectedOption && ...` section and itself requires
`uploadedFile && !isAnalyzing && !analysisResult`. -/
def analyzeButtonVisible (s : ControllerState) : Bool :=
  s.selectedOption.isSome && s.uploadedFile.isSome &&
    !s.isAnalyzing && s.analysisResult.isNone

/-- Triggering an analysis through the UI: `analyzeImage` runs only when
the Analyze button is rendered. -/
def triggerAnalyze (s : ControllerState) (out : RelayOutcome) :
    ControllerState × Bool :=
  if analyzeButtonVisible s then analyzeImage s out else (s, false)

/-- A concrete sample file used in witnesses. -/
def sampleFile : FileData :=
  { name := "photo.jpg", size := 3, bytes := [77, 97, 110] }

/-- A reachable state with a mode selected and a file uploaded, built from
the controller operations. -/
def readyState : ControllerState :=
  handleFileUpload (setSelectedOption initialState Mode.fullness) (some sampleFile)

/-! ### Analysis relay (`src/src/app/api/analyze/route.ts`) -/

/-- The standard base64 alphabet used by `Buffer.toString('base64')`. -/
def base64Table : List Char :=
  "ABCDEFGHIJKLMNOPQRSTUVWXYZabcdefghijklmnopqrstuvwxyz0123456789+/".toList

/-- The base64 digit for a 6-bit value. -/
def b64Char (n : Nat) : Char := base64Table.getD n 'A'

/-- Standard base64 encoding of a byte sequence, with `=` padding, as
produced by `Buffer.from(bytes).toString('base64')`. -/
def base64Encode : List Nat → String
  | [] => ""
  | [b1] =>
      String.mk [b64Char (b1 / 4), b64Char (b1 % 4 * 16), '=', '=']
  | [b1, b2] =>
      String.mk [b64Char (b1 / 4), b64Char (b1 % 4 * 16 + b2 / 16),
        b64Char (b2 % 16 * 4), '=']
  | b1 :: b2 :: b3 :: rest =>
      String.mk [b64Char (b1 / 4), b64Char (b1 % 4 * 16 + b2 / 16),
        b64Char (b2 % 16 * 4 + b3 / 64), b64Char (b3 % 64)] ++ base64Encode rest

/-- A JSON scalar value, enough to model the relay's bodies. -/
inductive JVal where
  | str (s : String)
  | num (q : Rat)
  | bool (b : Bool)
  | null
deriving DecidableEq

/-- A JSON object as an ordered field list; later fields shadow earlier
ones, as in a JavaScript object literal with spreads. -/
abbrev JObj := List (String × JVal)

/-- Key lookup in a JSON object: the last binding wins, matching
JavaScript object-literal semantics. -/
def jget (o : JObj) (k : String) : Option JVal :=
  (o.reverse.find? (fun p => p.1 == k)).map Prod.snd

/-- The inbound multipart form: `formData.get('file')` and
`formData.get('type')`, each possibly absent. -/
structure RelayRequest where
  file : Option FileData
  typeField : Option String
deriving DecidableEq

/-- The behaviour of the one upstream endpoint on this request: a 2xx
response with a JSON object body, a non-ok status with an error body, or
a network failure thrown by fetch. -/
inductive Upstream where
  | ok (body : JObj)
  | errStatus (status : Nat) (errorBody : String)
  | networkFailure (msg : String)
deriving DecidableEq

/-- An outbound HTTP call made by the relay. -/
structure OutboundCall where
  url : String
  contentType : String
  payload : JObj
deriving DecidableEq

/-- The relay's HTTP response: status code and JSON body. -/
structure RelayResponse where
  status : Nat
  body : JObj
deriving DecidableEq

/-- The statically configured external endpoint URL. -/
def EXTERNAL_API_ENDPOINT : String :=
  "https://web-segregation-api-1087940626963.asia-south2.run.app"

/-- The relay metadata fields placed before the spread of the upstream
body: `success`, `fileName`, `fileSize`, `analysisType`. -/
def relayMetadata (file : FileData) (t : String) : JObj :=
  [("success", JVal.bool true), ("fileName", JVal.str file.name),
   ("fileSize", JVal.num (file.size : Rat)), ("analysisType", JVal.str t)]

/-- The message of the error thrown on a non-ok upstream status. -/
def externalErrorMessage (status : Nat) (errorBody : String) : String :=
  "External API error! Status: " ++ toString status ++ ". Details: " ++
    (errorBody.take 200)

/-- The 500 body produced by the catch handler: `{error, details}`. -/
def failureBody (details : String) : JObj :=
  [("error", JVal.str "Failed to analyze image"), ("details", JVal.str details)]

/-- The `POST` handler of the relay, as a function of the inbound request
and of the upstream endpoint's behaviour. Returns the HTTP response and
the list of outbound calls actually made. Validation mirrors the source:
missing file → 400; `!analysisType || !['segregation',
'fullness'].includes(analysisType)` → 400; otherwise one fetch to the
external endpoint with the base64 payload, merging the upstream body over
the relay metadata on success and falling to the catch handler on any
failure. -/
def POST (req : RelayRequest) (up : Upstream) :
    RelayResponse × List OutboundCall :=
  match req.file with
  | none => ({ status := 400, body := [("error", JVal.str "No file uploaded")] }, [])
  | some file =>
    match req.typeField with
    | none =>
        ({ status := 400, body := [("error", JVal.str "Invalid analysis type")] }, [])
    | some t =>
      if t == "" || !(["segregation", "fullness"].contains t) then
        ({ status := 400, body := [("error", JVal.str "Invalid analysis type")] }, [])
      else
        let call : OutboundCall :=
          { url := EXTERNAL_API_ENDPOINT
            contentType := "application/json"
            payload := [("image", JVal.str (base64Encode file.bytes)),
                        ("analysis_type", JVal.str t)] }
        match up with
        | Upstream.ok result =>
            ({ status := 200, body := relayMetadata file t ++ result }, [call])
        | Upstream.errStatus st errorBody =>
            ({ status := 500,
               body := failureBody (externalErrorMessage st errorBody) }, [call])
        | Upstream.networkFailure msg =>
            ({ status := 500, body := failureBody msg }, [call])

/-! ### ProgressBar component (`src/unnamed/part_000`) -/

/-- The colour prop of `ProgressBar`. -/
inductive PBColor where
  | green
  | yellow
  | red
  | blue
deriving DecidableEq

/-- The size prop of `ProgressBar`. -/
inductive PBSize where
  | sm
  | md
  | lg
deriving DecidableEq

/-- The `sizeClasses` map. -/
def sizeClass : PBSize → String
  | PBSize.sm => "h-2"
  | PBSize.md => "h-3"
  | PBSize.lg => "h-4"

/-- The `colorClasses` map. -/
def colorClass : PBColor → String
  | PBColor.green => "bg-green-600"
  | PBColor.yellow => "bg-yellow-600"
  | PBColor.red => "bg-red-600"
  | PBColor.blue => "bg-blue-600"

/-- The `textColorClasses` map. -/
def textColorClass : PBColor → String
  | PBColor.green => "text-green-700 dark:text-green-300"
  | PBColor.yellow => "text-yellow-700 dark:text-yellow-300"
  | PBColor.red => "text-red-700 dark:text-red-300"
  | PBColor.blue => "text-blue-700 dark:text-blue-300"

/-- What `ProgressBar` renders: the label row (when shown) and the fill
bar's classes and width. -/
structure ProgressBarView where
  labelShown : Bool
  labelText : String
  labelValue : Rat
  labelColorClass : String
  barColorClass : String
  barHeightClass : String
  barWidthPct : Rat
deriving DecidableEq

/-- The rendering of `ProgressBar`: the label shows the raw `percentage`
value, the header text is `label || 'Progress'`, and the fill bar width is
`Math.min(100, Math.max(0, percentage))` percent. -/
def renderProgressBar (percentage : Rat) (color : PBColor) (size : PBSize)
    (showLabel : Bool) (label : Option String) : ProgressBarView :=
  { labelShown := showLabel
    labelText :=
      match label with
      | some l => if l == "" then "Progress" else l
      | none => "Progress"
    labelValue := percentage
    labelColorClass := textColorClass color
    barColorClass := colorClass color
    barHeightClass := sizeClass size
    barWidthPct := min 100 (max 0 percentage) }

/-! ### Shared helper lemmas on JSON-object lookup -/

/-- Lookup in an appended object finds keys of the right part first:
later (spread) fields shadow earlier ones. -/
theorem jget_append_some (a b : JObj) (k : String) (v : JVal)
    (h : jget b k = some v) : jget (a ++ b) k = some v := by
  unfold jget at h ⊢
  rw [List.reverse_append, List.find?_append]
  simp only [Option.map_eq_some'] at h ⊢
  obtain ⟨p, hp, hv⟩ := h
  exact ⟨p, by simp [hp], hv⟩

/-- Lookup in an appended object falls back to the left part when the
right part lacks the key. -/
theorem jget_append_none (a b : JObj) (k : String)
    (h : jget b k = none) : jget (a ++ b) k = jget a k := by
  unfold jget at h ⊢
  rw [List.reverse_append, List.find?_append]
  simp only [Option.map_eq_none'] at h
  simp [h]

/-! ### Claim theorems -/

/-- Claim C1: for every state with a selected file and mode, `analyzeImage`
run against any relay outcome (2xx, non-2xx, or transport failure) ends
with the analyzing flag cleared and `analysisResult` populated — never
stuck in analyzing with no result. -/
theorem analyzeImage_always_resolves (s : ControllerState) (out : RelayOutcome)
    (f : FileData) (m : Mode)
    (hf : s.uploadedFile = some f) (hm : s.selectedOption = some m) :
    (analyzeImage s out).1.isAnalyzing = false ∧
      ((analyzeImage s out).1.analysisResult).isSome = true := by
  obtain ⟨so, uf, ia, ar⟩ := s
  cases hf
  cases hm
  cases out <;> exact ⟨rfl, rfl⟩

/-- Witness for C1: the reachable ready state, on a transport failure,
ends not-analyzing with a result set. -/
theorem analyzeImage_always_resolves_witness :
    (analyzeImage readyState RelayOutcome.transportFailure).1.isAnalyzing = false ∧
      ((analyzeImage readyState RelayOutcome.transportFailure).1.analysisResult).isSome
        = true :=
  analyzeImage_always_resolves readyState RelayOutcome.transportFailure
    sampleFile Mode.fullness rfl rfl

/-- Counterexample to C2: a result whose upstream body supplies
`bin_level = 95` but omits `alert` has `isAlert = false` even though the
fill level is at least 90 — the alert flag is not derived from the fill
percentage. -/
theorem isAlert_not_derived_from_fill :
    ¬ ((isAlert (some { bin_level := some 95 }) = true) ↔
        (90 ≤ binLevel (some { bin_level := some 95 }))) := by
  decide

/-- Claim C2 (amended): the controller's alert flag is true iff the
upstream response explicitly supplied `alert = true`; when the upstream
omits `alert`, the flag defaults to false regardless of the fill level. -/
theorem isAlert_eq_upstream_alert (r : AnalysisResult) :
    isAlert (some r) = true ↔ r.alert = some true := by
  cases h : r.alert with
  | none => simp [isAlert, h]
  | some b => cases b <;> simp [isAlert, h]

/-- Claim C3: on any non-2xx or transport failure, `analyzeImage` installs
the mode-dependent mock fallback: its status is "Error", its message says
mock data is shown, and the segregation and fullness shapes differ. -/
theorem analyzeImage_failure_fallback (s : ControllerState)
    (f : FileData) (m : Mode) (out : RelayOutcome)
    (hf : s.uploadedFile = some f) (hm : s.selectedOption = some m)
    (hout : out = RelayOutcome.transportFailure ∨
      ∃ n, out = RelayOutcome.httpError n) :
    (analyzeImage s out).1.analysisResult = some (mockFallback m) ∧
      (mockFallback m).status = some "Error" ∧
      (mockFallback Mode.segregation).message =
        some "Analysis failed, showing mock data for segregation." ∧
      (mockFallback Mode.fullness).message =
        some "Analysis failed, showing mock data for fullness check." ∧
      (mockFallback Mode.segregation).segregated_category = some "PLASTIC" ∧
      (mockFallback Mode.fullness).bin_level = some ((955 : Rat) / 10) := by
  obtain ⟨so, uf, ia, ar⟩ := s
  cases hf
  cases hm
  rcases hout with rfl | ⟨n, rfl⟩ <;>
    exact ⟨rfl, by cases m <;> rfl, rfl, rfl, rfl, rfl⟩

/-- Witness for C3: the ready fullness state on a 500 from the relay gets
the fullness mock fallback. -/
theorem analyzeImage_failure_fallback_witness :
    (analyzeImage readyState (RelayOutcome.httpError 500)).1.analysisResult =
        some (mockFallback Mode.fullness) ∧
      (mockFallback Mode.fullness).status = some "Error" ∧
      (mockFallback Mode.segregation).message =
        some "Analysis failed, showing mock data for segregation." ∧
      (mockFallback Mode.fullness).message =
        some "Analysis failed, showing mock data for fullness check." ∧
      (mockFallback Mode.segregation).segregated_category = some "PLASTIC" ∧
      (mockFallback Mode.fullness).bin_level = some ((955 : Rat) / 10) :=
  analyzeImage_failure_fallback readyState sampleFile Mode.fullness
    (RelayOutcome.httpError 500) rfl rfl (Or.inr ⟨500, rfl⟩)

/-- Claim C4: triggering an analysis is a no-op — no state change and no
request issued — whenever the file is missing, the mode is unselected, or
an analysis is already in flight; hence at most one analyze operation is
ever in flight. -/
theorem triggerAnalyze_noop (s : ControllerState) (out : RelayOutcome)
    (h : s.uploadedFile = none ∨ s.selectedOption = none ∨ s.isAnalyzing = true) :
    triggerAnalyze s out = (s, false) := by
  have hb : analyzeButtonVisible s = false := by
    rcases h with h | h | h <;> simp [analyzeButtonVisible, h]
  simp [triggerAnalyze, hb]

/-- Witness for C4: a second trigger while the ready state is analyzing
changes nothing and issues no request. -/
theorem triggerAnalyze_noop_witness :
    triggerAnalyze (analyzeStart readyState) RelayOutcome.transportFailure =
      (analyzeStart readyState, false) :=
  triggerAnalyze_noop (analyzeStart readyState) RelayOutcome.transportFailure
    (Or.inr (Or.inr rfl))

/-- Counterexample to C5: invoking `resetUpload` from the (reachable)
analyzing phase does not restore the initial state — the analyzing flag
stays set. -/
theorem resetUpload_keeps_isAnalyzing :
    resetUpload (analyzeStart readyState) ≠ initialState ∧
      (resetUpload (analyzeStart readyState)).isAnalyzing = true := by
  decide

/-- Claim C5 (amended): `resetUpload` unconditionally clears the mode, the
selected file, and the result, but leaves the analyzing flag unchanged; in
particular from any non-analyzing state it restores the exact initial
state. -/
theorem resetUpload_clears_except_isAnalyzing (s : ControllerState) :
    resetUpload s = { initialState with isAnalyzing := s.isAnalyzing } := rfl

/-- Claim C6: the relay answers 400 with an error body and makes no
outbound call whenever the file is absent or the type field is missing or
not one of "segregation" and "fullness". -/
theorem POST_rejects_invalid_input (req : RelayRequest) (up : Upstream)
    (h : req.file = none ∨ req.typeField = none ∨
      ∃ t, req.typeField = some t ∧ t ≠ "segregation" ∧ t ≠ "fullness") :
    (POST req up).1.status = 400 ∧
      (jget (POST req up).1.body "error").isSome = true ∧
      (POST req up).2 = [] := by
  obtain ⟨rf, rt⟩ := req
  rcases h with h | h | ⟨t, ht, h1, h2⟩
  · cases h
    exact ⟨rfl, rfl, rfl⟩
  · cases h
    cases rf with
    | none => exact ⟨rfl, rfl, rfl⟩
    | some file => exact ⟨rfl, rfl, rfl⟩
  · cases ht
    cases rf with
    | none => exact ⟨rfl, rfl, rfl⟩
    | some file =>
      have hc : (["segregation", "fullness"].contains t) = false := by
        simp [h1, h2]
      have hP : POST { file := some file, typeField := some t } up =
          ({ status := 400,
             body := [("error", JVal.str "Invalid analysis type")] }, []) := by
        simp only [POST, hc, Bool.not_false, Bool.or_true, if_true]
      rw [hP]
      exact ⟨rfl, rfl, rfl⟩

/-- Witness for C6: mode "unknown" is rejected with 400 and no outbound
call. -/
theorem POST_rejects_invalid_input_witness :
    (POST { file := some sampleFile, typeField := some "unknown" }
        (Upstream.networkFailure "down")).1.status = 400 ∧
      (jget (POST { file := some sampleFile, typeField := some "unknown" }
        (Upstream.networkFailure "down")).1.body "error").isSome = true ∧
      (POST { file := some sampleFile, typeField := some "unknown" }
        (Upstream.networkFailure "down")).2 = [] :=
  POST_rejects_invalid_input
    { file := some sampleFile, typeField := some "unknown" }
    (Upstream.networkFailure "down")
    (Or.inr (Or.inr ⟨"unknown", rfl, by decide, by decide⟩))

/-- Claim C7: on an accepted request whose upstream call fails (network
error or non-ok status), the relay answers 500 with an `{error, details}`
body after exactly one outbound call — no retry. -/
theorem POST_upstream_failure_single_call (req : RelayRequest)
    (file : FileData) (t : String) (up : Upstream)
    (hf : req.file = some file) (ht : req.typeField = some t)
    (hv : t = "segregation" ∨ t = "fullness")
    (hup : (∃ st b, up = Upstream.errStatus st b) ∨
      ∃ m, up = Upstream.networkFailure m) :
    (POST req up).1.status = 500 ∧
      (jget (POST req up).1.body "error").isSome = true ∧
      (jget (POST req up).1.body "details").isSome = true ∧
      (POST req up).2.length = 1 := by
  obtain ⟨rf, rt⟩ := req
  cases hf
  cases ht
  rcases hup with ⟨st, b, rfl⟩ | ⟨m, rfl⟩ <;> rcases hv with rfl | rfl <;>
    exact ⟨rfl, rfl, rfl, rfl⟩

/-- Witness for C7: a 503 upstream produces a 500 `{error, details}` reply
after one call. -/
theorem POST_upstream_failure_single_call_witness :
    (POST { file := some sampleFile, typeField := some "fullness" }
        (Upstream.errStatus 503 "overloaded")).1.status = 500 ∧
      (jget (POST { file := some sampleFile, typeField := some "fullness" }
        (Upstream.errStatus 503 "overloaded")).1.body "error").isSome = true ∧
      (jget (POST { file := some sampleFile, typeField := some "fullness" }
        (Upstream.errStatus 503 "overloaded")).1.body "details").isSome = true ∧
      (POST { file := some sampleFile, typeField := some "fullness" }
        (Upstream.errStatus 503 "overloaded")).2.length = 1 :=
  POST_upstream_failure_single_call
    { file := some sampleFile, typeField := some "fullness" }
    sampleFile "fullness" (Upstream.errStatus 503 "overloaded")
    rfl rfl (Or.inr rfl) (Or.inl ⟨503, "overloaded", rfl⟩)

/-- Claim C8: an accepted request is forwarded as exactly one call to the
configured endpoint with Content-Type application/json and the JSON
payload `image` (base64 of the file bytes), `analysis_type` (the mode);
on upstream 2xx the relay answers 200 with the upstream body spread over
the `success`/`fileName`/`fileSize`/`analysisType` metadata, leaving every
upstream-supplied field unaltered. -/
theorem POST_forwards_and_merges (req : RelayRequest)
    (file : FileData) (t : String) (result : JObj)
    (hf : req.file = some file) (ht : req.typeField = some t)
    (hv : t = "segregation" ∨ t = "fullness") :
    (POST req (Upstream.ok result)).2 =
      [{ url := EXTERNAL_API_ENDPOINT
         contentType := "application/json"
         payload := [("image", JVal.str (base64Encode file.bytes)),
                     ("analysis_type", JVal.str t)] }] ∧
      (POST req (Upstream.ok result)).1.status = 200 ∧
      (POST req (Upstream.ok result)).1.body = relayMetadata file t ++ result ∧
      ∀ k v, jget result k = some v →
        jget (POST req (Upstream.ok result)).1.body k = some v := by
  obtain ⟨rf, rt⟩ := req
  cases hf
  cases ht
  rcases hv with rfl | rfl <;>
    exact ⟨rfl, rfl, rfl, fun k v h => jget_append_some _ _ _ _ h⟩

/-- Witness for C8: a concrete accepted fullness request with an upstream
`bin_level` body. -/
theorem POST_forwards_and_merges_witness :
    (POST { file := some sampleFile, typeField := some "fullness" }
        (Upstream.ok [("bin_level", JVal.num 95)])).1.status = 200 ∧
      (POST { file := some sampleFile, typeField := some "fullness" }
        (Upstream.ok [("bin_level", JVal.num 95)])).1.body =
        relayMetadata sampleFile "fullness" ++ [("bin_level", JVal.num 95)] ∧
      (POST { file := some sampleFile, typeField := some "fullness" }
        (Upstream.ok [("bin_level", JVal.num 95)])).2 =
        [{ url := EXTERNAL_API_ENDPOINT
           contentType := "application/json"
           payload := [("image", JVal.str (base64Encode sampleFile.bytes)),
                       ("analysis_type", JVal.str "fullness")] }] :=
  ⟨(POST_forwards_and_merges
      { file := some sampleFile, typeField := some "fullness" }
      sampleFile "fullness" [("bin_level", JVal.num 95)] rfl rfl (Or.inr rfl)).2.1,
   (POST_forwards_and_merges
      { file := some sampleFile, typeField := some "fullness" }
      sampleFile "fullness" [("bin_level", JVal.num 95)] rfl rfl (Or.inr rfl)).2.2.1,
   (POST_forwards_and_merges
      { file := some sampleFile, typeField := some "fullness" }
      sampleFile "fullness" [("bin_level", JVal.num 95)] rfl rfl (Or.inr rfl)).1⟩

/-- Claim C9: because the upstream body is spread after the relay's own
fields, any upstream-supplied key — including `success`, `fileName`,
`fileSize`, `analysisType` — silently overrides the relay's value, and
the merged body agrees with the relay metadata only on keys the upstream
does not supply. -/
theorem POST_upstream_overrides_metadata (req : RelayRequest)
    (file : FileData) (t : String) (result : JObj)
    (hf : req.file = some file) (ht : req.typeField = some t)
    (hv : t = "segregation" ∨ t = "fullness") :
    (∀ k v, jget result k = some v →
        jget (POST req (Upstream.ok result)).1.body k = some v) ∧
      ∀ k, jget result k = none →
        jget (POST req (Upstream.ok result)).1.body k =
          jget (relayMetadata file t) k := by
  obtain ⟨rf, rt⟩ := req
  cases hf
  cases ht
  rcases hv with rfl | rfl <;>
    exact ⟨fun k v h => jget_append_some _ _ _ _ h,
      fun k h => jget_append_none _ _ _ h⟩

/-- Witness for C9: an upstream body carrying its own `fileName` value
"spoof" overrides the relay's `fileName` (the actual file is named
"photo.jpg"). -/
theorem POST_upstream_overrides_metadata_witness :
    jget (POST { file := some sampleFile, typeField := some "fullness" }
        (Upstream.ok [("fileName", JVal.str "spoof")])).1.body "fileName" =
      some (JVal.str "spoof") :=
  (POST_upstream_overrides_metadata
      { file := some sampleFile, typeField := some "fullness" }
      sampleFile "fullness" [("fileName", JVal.str "spoof")]
      rfl rfl (Or.inr rfl)).1 "fileName" (JVal.str "spoof") rfl

/-- Claim C10: for every percentage input, the `ProgressBar` fill width is
clamped to [0, 100] while the text label shows the raw percentage. -/
theorem renderProgressBar_width_clamped (p : Rat) (c : PBColor) (sz : PBSize)
    (sl : Bool) (lab : Option String) :
    0 ≤ (renderProgressBar p c sz sl lab).barWidthPct ∧
      (renderProgressBar p c sz sl lab).barWidthPct ≤ 100 ∧
      (renderProgressBar p c sz sl lab).labelValue = p := by
  refine ⟨?_, ?_, rfl⟩
  · show (0 : Rat) ≤ min 100 (max 0 p)
    exact le_min (by norm_num) (le_max_left 0 p)
  · show min (100 : Rat) (max 0 p) ≤ 100
    exact min_le_left _ _

end Smartbin
